import Mathlib

/-!
Shallow embedding of the admin upload/validation pipeline of the KG
single-page application (source: src/components/Admin.tsx and the
near-duplicate revision in the unnamed part_001 file).

Conventions of the embedding:
* JS strings are Lean String values; JS string truthiness (empty = falsy)
  becomes explicit emptiness tests.
* File sizes and HTTP status codes are Nat.  The JS number arithmetic in
  humanFileSize only ever divides by 1024 (a power of two), which is exact
  in binary floating point for integer inputs below 2^53, so the loop is
  embedded with exact rational arithmetic (numerator and a power-of-1024
  denominator) without loss of fidelity.
* JSON.parse is a platform builtin, not repository code; its verdict on the
  response text is an explicit input (ParseOutcome) to the response models.
* Effectful control flow (early returns before network activity, the XHR
  onload handler, the fetch response handling) is embedded as pure
  functions from the inputs read by the source code to the observable
  outcome (surfaced error message, network calls issued, state update).
-/

namespace KG

/-! ### JavaScript primitives used by the component -/

/-- Whitespace per the JS String.prototype.trim specification
(WhiteSpace and LineTerminator code points; the common cases). -/
def isJsWhitespace (c : Char) : Bool :=
  c = ' ' || c = '\t' || c = '\n' || c = '\r' ||
  c = Char.ofNat 0x0b || c = Char.ofNat 0x0c || c = Char.ofNat 0xa0 ||
  c = Char.ofNat 0x2028 || c = Char.ofNat 0x2029 || c = Char.ofNat 0xfeff

/-- Model of the JS builtin String.prototype.trim: drop leading and
trailing whitespace. -/
def jsTrim (s : String) : String :=
  ⟨((s.data.dropWhile isJsWhitespace).reverse.dropWhile isJsWhitespace).reverse⟩

/-- JSON values, as far as the admin component inspects them: the response
bodies it reads are null, objects, strings, numbers or booleans. -/
inductive Json where
  | null
  | bool (b : Bool)
  | num (n : Int)
  | str (s : String)
  | obj (fields : List (String × Json))

/-- JS truthiness of a JSON value (used to embed the `x || fallback`
idiom of the source). -/
def jsTruthy : Json → Bool
  | .null => false
  | .bool b => b
  | .num n => decide (n ≠ 0)
  | .str s => decide (s ≠ "")
  | .obj _ => true

/-- JS String(x) coercion of a JSON value (the message an Error built from
a non-string value would carry). -/
def jsToString : Json → String
  | .null => "null"
  | .bool b => if b then "true" else "false"
  | .num n => toString n
  | .str s => s
  | .obj _ => "[object Object]"

/-- Property access `body?.key` of the source: defined only on objects;
on null or a primitive it yields undefined, embedded as none. -/
def jsonField : Json → String → Option Json
  | .obj fields, key => fields.lookup key
  | _, _ => none

/-- The keys of a JSON object, in order. -/
def jsonObjKeys : Json → List String
  | .obj fields => fields.map Prod.fst
  | _ => []

/-- Embedding of `v || fallback` where v is an optional JSON value
(undefined, i.e. none, is falsy) and the result is used as an error
message string. -/
def jsOrElseString (v : Option Json) (fallback : String) : String :=
  match v with
  | some j => if jsTruthy j then jsToString j else fallback
  | none => fallback

/-- Verdict of the platform JSON parser on a response text: a parsed value
or a thrown syntax error. -/
inductive ParseOutcome where
  | ok (v : Json)
  | err

/-! ### Admin.tsx helpers (lines 20-58) -/

/-- `const units = ["B", "KB", "MB", "GB"]` (Admin.tsx line 21). -/
def fileSizeUnits : List String := ["B", "KB", "MB", "GB"]

/-- JS Number.prototype.toFixed(1) applied to the exact value p / q
(q > 0): round to one decimal digit, ties away from zero, rendered with
exactly one digit after the point. -/
def jsToFixed1 (p q : Nat) : String :=
  let m := (20 * p + q) / (2 * q)
  toString (m / 10) ++ "." ++ toString (m % 10)

/-- Final unit index of the while loop of humanFileSize
(`while (n >= 1024 && i < units.length - 1)`): after i exact divisions by
1024 the running value is bytes / 1024 ^ i, so the loop continues while
bytes >= 1024 ^ (i + 1), capped at index 3. -/
def hfsUnitIndex (bytes : Nat) : Nat :=
  if bytes < 1024 then 0
  else if bytes < 1024 * 1024 then 1
  else if bytes < 1024 * 1024 * 1024 then 2
  else 3

/-- Admin.tsx lines 20-29: humanFileSize.  The displayed number is
n.toFixed(0) for the B unit (n is then the integer byte count) and
n.toFixed(1) otherwise, with n = bytes / 1024 ^ i exactly. -/
def humanFileSize (bytes : Nat) : String :=
  let i := hfsUnitIndex bytes
  (if i = 0 then toString bytes else jsToFixed1 bytes (1024 ^ i)) ++
    " " ++ fileSizeUnits.getD i ""

/-- Admin.tsx lines 31-33: s.replace of a single trailing slash. -/
def stripTrailingSlash (s : String) : String :=
  if s.data.getLast? = some '/' then ⟨s.data.dropLast⟩ else s

/-! ### File validation (Admin.tsx lines 130-156) -/

/-- A browser File as far as validateVideoFile reads it: declared MIME
type and byte size (plus the display name). -/
structure JsFile where
  name : String
  type : String
  size : Nat
deriving DecidableEq

/-- `const allowed = ["video/mp4", "video/webm", "video/quicktime"]`
(Admin.tsx line 132). -/
def allowedVideoTypes : List String := ["video/mp4", "video/webm", "video/quicktime"]

/-- `const MAX = 200 * 1024 * 1024` (Admin.tsx line 136). -/
def maxVideoBytes : Nat := 200 * 1024 * 1024

/-- Admin.tsx lines 130-141: validateVideoFile.  Returns an error message,
or the empty string when the file is absent or acceptable.  The
`${f.type || "unknown"}` interpolation renders an empty declared type as
the token unknown. -/
def validateVideoFile : Option JsFile → String
  | none => ""
  | some f =>
    if allowedVideoTypes.contains f.type = false then
      "Неподдерживаемый формат: " ++ (if f.type = "" then "unknown" else f.type) ++
        ". Разрешено: mp4, webm, mov"
    else if maxVideoBytes < f.size then
      "Файл слишком большой: " ++ humanFileSize f.size ++ ". Максимум: " ++
        humanFileSize maxVideoBytes
    else ""

/-- Admin.tsx lines 143-156: validateBeforeUpload.  The module-level
WORKER_BASE_URL constant is passed explicitly; `if (!WORKER_BASE_URL)`
tests string emptiness. -/
def validateBeforeUpload (workerBaseUrl title content region season fact : String)
    (file : Option JsFile) : String :=
  if workerBaseUrl = "" then "Не задан VITE_WORKER_BASE_URL"
  else if jsTrim title = "" then "Заполни Title"
  else if jsTrim content = "" then "Заполни Content"
  else if jsTrim region = "" then "Выбери region"
  else if jsTrim season = "" then "Выбери season"
  else if jsTrim fact = "" then "Заполни fact (1 строка)"
  else match file with
    | none => "Выбери видеофайл"
    | some f => validateVideoFile (some f)

/-! ### createViaWorker pre-network control flow (Admin.tsx lines 159-196) -/

/-- Outcome of createViaWorker up to the point where bytes are first sent:
either the early return with the surfaced validation error (before
uploadingCreate is set and before any network activity), or the list of
network operations performed (the token fetch, then the multipart POST). -/
inductive CreateStart where
  | blocked (errorMessage : String)
  | started (networkCalls : List String)
deriving DecidableEq

/-- Admin.tsx lines 159-196: `const v = validateBeforeUpload(); if (v)
{ setError(v); return; }` and otherwise the token fetch followed by the
XHR open/send against the create-post endpoint. -/
def createViaWorkerStart (workerBaseUrl title content region season fact : String)
    (file : Option JsFile) : CreateStart :=
  let v := validateBeforeUpload workerBaseUrl title content region season fact file
  if v = "" then
    CreateStart.started
      ["supabase.auth.getSession",
       "POST " ++ stripTrailingSlash workerBaseUrl ++ "/api/admin/create-post"]
  else
    CreateStart.blocked v

/-- Network operations issued by one createViaWorker attempt. -/
def createNetworkCalls (workerBaseUrl title content region season fact : String)
    (file : Option JsFile) : List String :=
  match createViaWorkerStart workerBaseUrl title content region season fact file with
  | CreateStart.blocked _ => []
  | CreateStart.started calls => calls

/-! ### XHR onload handling (Admin.tsx lines 198-214 and 352-368) -/

/-- The body computed by the onload handler: empty responseText gives
null; a parse failure on non-empty text gives the synthesized error
object. -/
def xhrOnloadBody (responseText : String) (parse : ParseOutcome) : Json :=
  if responseText = "" then Json.null
  else
    match parse with
    | ParseOutcome.ok v => v
    | ParseOutcome.err => Json.obj [("error", Json.str "Invalid JSON from server")]

/-- The resolved value of the upload promise:
`{ ok: xhr.status >= 200 && xhr.status < 300, status, body }`. -/
structure XhrResult where
  ok : Bool
  status : Nat
  body : Json

/-- Admin.tsx onload handler: ok is computed from the status alone. -/
def xhrOnloadResult (status : Nat) (responseText : String) (parse : ParseOutcome) : XhrResult :=
  { ok := decide (200 ≤ status) && decide (status < 300)
  , status := status
  , body := xhrOnloadBody responseText parse }

/-- Terminal outcome of the create upload after the response arrives:
the success path (form reset and list reload) or the surfaced error
message. -/
inductive CreateOutcome where
  | success
  | failure (message : String)
deriving DecidableEq

/-- Admin.tsx line 214: `if (!result.ok) throw new Error(
result.body?.error || "Upload failed (status N)")`; otherwise the success
path runs. -/
def createResponseOutcome (status : Nat) (responseText : String)
    (parse : ParseOutcome) : CreateOutcome :=
  let result := xhrOnloadResult status responseText parse
  if result.ok = false then
    CreateOutcome.failure
      (jsOrElseString (jsonField result.body "error")
        ("Upload failed (status " ++ toString result.status ++ ")"))
  else
    CreateOutcome.success

/-! ### saveEditViaWorker response handling (Admin.tsx lines 278-297) -/

/-- `await res.json().catch(() => ({}))`: an empty or unparseable body
yields the empty object. -/
def fetchJsonBodyOrEmptyObj (responseText : String) (parse : ParseOutcome) : Json :=
  if responseText = "" then Json.obj []
  else
    match parse with
    | ParseOutcome.ok v => v
    | ParseOutcome.err => Json.obj []

/-- Admin.tsx lines 296-297: the error surfaced by the update-post call
(none on a 2xx response; res.ok of fetch is status in [200,300)). -/
def saveEditResponseError (status : Nat) (responseText : String)
    (parse : ParseOutcome) : Option String :=
  let data := fetchJsonBodyOrEmptyObj responseText parse
  if (decide (200 ≤ status) && decide (status < 300)) = false then
    some (jsOrElseString (jsonField data "error")
      ("Update failed (status " ++ toString status ++ ")"))
  else none

/-- Admin.tsx lines 284-293: the JSON body of the update-post request.
map_url is `editMapUrl.trim() || null`; map_region mirrors editRegion;
video_file is never included. -/
def saveEditRequestBody (editingId : Nat)
    (editTitle editContent editRegion editSeason editFact editMapUrl : String) : Json :=
  Json.obj
    [ ("id", Json.num editingId)
    , ("title", Json.str (jsTrim editTitle))
    , ("content", Json.str (jsTrim editContent))
    , ("region", Json.str editRegion)
    , ("season", Json.str editSeason)
    , ("fact", Json.str (jsTrim editFact))
    , ("map_url", if jsTrim editMapUrl = "" then Json.null else Json.str (jsTrim editMapUrl))
    , ("map_region", Json.str editRegion)
    ]

/-! ### replaceVideoViaWorker response handling (Admin.tsx lines 343-379) -/

/-- Local edit-modal display state touched by the edit flow. -/
structure EditState where
  editTitle : String
  editContent : String
  editVideoFile : String
  editRegion : String
  editSeason : String
  editFact : String
  editMapUrl : String
deriving DecidableEq

/-- Admin.tsx lines 371-374: on the success path, `const newFile =
result.body?.file; if (typeof newFile === "string")
setEditVideoFile(newFile)`; no other edit field is written. -/
def replaceVideoApplySuccess (st : EditState) (body : Json) : EditState :=
  match jsonField body "file" with
  | some (Json.str newFile) => { st with editVideoFile := newFile }
  | _ => st

/-- Terminal outcome of the replace-video upload: the success path
(carrying the parsed body the file field is read from) or the surfaced
error message. -/
inductive ReplaceOutcome where
  | success (body : Json)
  | failure (message : String)

/-- Admin.tsx line 368: `if (!result.ok) throw new Error(
result.body?.error || "Replace failed (status N)")`. -/
def replaceResponseOutcome (status : Nat) (responseText : String)
    (parse : ParseOutcome) : ReplaceOutcome :=
  let result := xhrOnloadResult status responseText parse
  if result.ok = false then
    ReplaceOutcome.failure
      (jsOrElseString (jsonField result.body "error")
        ("Replace failed (status " ++ toString result.status ++ ")"))
  else
    ReplaceOutcome.success result.body

/-! ### part_001 revision: validateCreateForm and its createViaWorker -/

/-- The per-field error record built by validateCreateForm in the
part_001 revision (a Record from field name to message; absent key =
no error). -/
structure CreateFormErrors where
  title : Option String
  content : Option String
  region : Option String
  season : Option String
  fact : Option String
  file : Option String
deriving DecidableEq

/-- part_001 lines 680-695: validateCreateForm.  The file slot gets the
missing-file message when no file is chosen, else the validateVideoFile
message when that is non-empty. -/
def validateCreateForm (title content region season fact : String)
    (file : Option JsFile) : CreateFormErrors :=
  { title := if jsTrim title = "" then some "Заполни Title" else none
  , content := if jsTrim content = "" then some "Заполни Content" else none
  , region := if jsTrim region = "" then some "Выбери region" else none
  , season := if jsTrim season = "" then some "Выбери season" else none
  , fact := if jsTrim fact = "" then some "Заполни fact (1 строка)" else none
  , file :=
      match file with
      | none => some "Выбери видеофайл"
      | some f =>
        if validateVideoFile (some f) = "" then none
        else some (validateVideoFile (some f)) }

/-- `Object.keys(errors).length === 0` of part_001. -/
def CreateFormErrors.hasNone (e : CreateFormErrors) : Bool :=
  e.title = none && e.content = none && e.region = none &&
    e.season = none && e.fact = none && e.file = none

/-- Outcome of the part_001 createViaWorker before bytes are sent: the
early return surfacing the field errors, the thrown configuration error
(raised inside the try block before the token fetch), or the network
operations performed. -/
inductive P1CreatePre where
  | formErrors (errors : CreateFormErrors)
  | configError (message : String)
  | proceed (networkCalls : List String)
deriving DecidableEq

/-- part_001 lines 696-707: `if (!validateCreateForm()) return;` and then,
inside the try block, `if (!WORKER_BASE_URL) throw new Error(...)` before
getJwtOrThrow and the XHR send. -/
def createViaWorkerPart1Start (workerBaseUrl title content region season fact : String)
    (file : Option JsFile) : P1CreatePre :=
  let errors := validateCreateForm title content region season fact file
  if errors.hasNone = false then P1CreatePre.formErrors errors
  else if workerBaseUrl = "" then
    P1CreatePre.configError "Не задан VITE_WORKER_BASE_URL"
  else
    P1CreatePre.proceed
      ["supabase.auth.getSession",
       "POST " ++ stripTrailingSlash workerBaseUrl ++ "/api/admin/create-post"]

/-! ### Substring containment -/

/-- s contains m as a contiguous substring. -/
def ContainsSubstr (s m : String) : Prop := ∃ pre post : String, s = pre ++ m ++ post

theorem containsSubstr_mid (a m b : String) : ContainsSubstr (a ++ m ++ b) m :=
  ⟨a, b, rfl⟩

theorem containsSubstr_suffix (a m : String) : ContainsSubstr (a ++ m) m :=
  ⟨a, "", by rw [String.append_assoc, String.append_empty]⟩

theorem append_ne_empty_of_left (l r : String) (h : l ≠ "") : l ++ r ≠ "" := by
  intro he
  apply h
  have hd : l.data ++ r.data = ([] : List Char) := by
    have := congrArg String.data he
    simpa [String.data_append] using this
  exact String.ext (List.append_eq_nil.mp hd).1

/-! ### Claim theorems -/

theorem validateVideoFile_format_msg (f : JsFile) (h : f.type ∉ allowedVideoTypes) :
    validateVideoFile (some f) =
      "Неподдерживаемый формат: " ++ (if f.type = "" then "unknown" else f.type) ++
        ". Разрешено: mp4, webm, mov" := by
  have hc : allowedVideoTypes.contains f.type = false := by
    cases hcc : allowedVideoTypes.contains f.type
    · rfl
    · exact absurd (List.elem_iff.mp hcc) h
  simp [validateVideoFile, hc]
  exact fun hm => absurd hm h

/-- C2: for every file whose declared MIME type is not one of video/mp4,
video/webm, video/quicktime, validateVideoFile returns a non-empty message
that contains the rejected type (or the token unknown when the type is
empty) and enumerates the accepted extensions mp4, webm, mov, regardless
of the file size. -/
theorem c2_unsupported_format (f : JsFile) (h : f.type ∉ allowedVideoTypes) :
    validateVideoFile (some f) ≠ "" ∧
    ContainsSubstr (validateVideoFile (some f)) (if f.type = "" then "unknown" else f.type) ∧
    ContainsSubstr (validateVideoFile (some f)) "mp4, webm, mov" := by
  rw [validateVideoFile_format_msg f h]
  refine ⟨?_, ?_, ?_⟩
  · exact append_ne_empty_of_left _ _ (append_ne_empty_of_left _ _ (by decide))
  · exact containsSubstr_mid _ _ _
  · have hsplit : (". Разрешено: mp4, webm, mov" : String) =
        ". Разрешено: " ++ "mp4, webm, mov" := by decide
    rw [hsplit, ← String.append_assoc]
    exact containsSubstr_suffix _ _

theorem c2_unsupported_format_witness :
    validateVideoFile (some ⟨"notes.txt", "text/plain", 100⟩) ≠ "" ∧
    ContainsSubstr (validateVideoFile (some ⟨"notes.txt", "text/plain", 100⟩)) "text/plain" ∧
    ContainsSubstr (validateVideoFile (some ⟨"notes.txt", "text/plain", 100⟩)) "mp4, webm, mov" := by
  have h := c2_unsupported_format ⟨"notes.txt", "text/plain", 100⟩ (by decide)
  simpa using h

/-- C4 counterexample: humanFileSize renders KB and MB values with one
decimal digit, so 1024 bytes is not rendered as 1 KB and 200 MiB is not
rendered as 200 MB. -/
theorem c4_counterexample :
    humanFileSize 1024 ≠ "1 KB" ∧ humanFileSize (200 * 1024 * 1024) ≠ "200 MB" := by
  exact ⟨by decide, by decide⟩

/-- C4 amended: humanFileSize(0) is 0 B, humanFileSize(1024) is 1.0 KB,
humanFileSize(1536) is 1.5 KB, and humanFileSize(200 * 1024 * 1024) is
200.0 MB (toFixed(1) keeps one decimal digit for every unit above B). -/
theorem c4_amended :
    humanFileSize 0 = "0 B" ∧ humanFileSize 1024 = "1.0 KB" ∧
    humanFileSize 1536 = "1.5 KB" ∧ humanFileSize (200 * 1024 * 1024) = "200.0 MB" := by
  exact ⟨by decide, by decide, by decide, by decide⟩

/-- C10: validateVideoFile treats an absent file as valid (empty message);
the requirement that a file be chosen is enforced by the per-field check
of validateCreateForm, which reports the missing-file message for the file
field on every form state with no file selected. -/
theorem c10_absent_file_valid :
    validateVideoFile none = "" ∧
    ∀ title content region season fact,
      (validateCreateForm title content region season fact none).file =
        some "Выбери видеофайл" :=
  ⟨rfl, fun _ _ _ _ _ => rfl⟩

theorem validateVideoFile_size_msg (f : JsFile) (h : f.type ∈ allowedVideoTypes)
    (hs : maxVideoBytes < f.size) :
    validateVideoFile (some f) =
      "Файл слишком большой: " ++ humanFileSize f.size ++ ". Максимум: " ++
        humanFileSize maxVideoBytes := by
  have hc : allowedVideoTypes.contains f.type = true := List.elem_iff.mpr h
  simp [validateVideoFile, hc, hs]
  exact fun hm => absurd h hm

/-- C3: for every file with an accepted MIME type, a byte size above
200 * 1024 * 1024 makes validateVideoFile return a message containing
both the human-readable file size and the human-readable limit, and a
size at most the limit makes it return the empty string. -/
theorem c3_size_limit (f : JsFile) (h : f.type ∈ allowedVideoTypes) :
    (maxVideoBytes < f.size →
      ContainsSubstr (validateVideoFile (some f)) (humanFileSize f.size) ∧
      ContainsSubstr (validateVideoFile (some f)) (humanFileSize maxVideoBytes)) ∧
    (f.size ≤ maxVideoBytes → validateVideoFile (some f) = "") := by
  constructor
  · intro hs
    rw [validateVideoFile_size_msg f h hs]
    constructor
    · rw [String.append_assoc]
      exact containsSubstr_mid _ _ _
    · exact containsSubstr_suffix _ _
  · intro hle
    have hc : allowedVideoTypes.contains f.type = true := List.elem_iff.mpr h
    simp [validateVideoFile, hc, Nat.not_lt.mpr hle]
    exact fun hm => absurd h hm

theorem c3_size_limit_witness :
    ContainsSubstr (validateVideoFile (some ⟨"big.mp4", "video/mp4", 300 * 1024 * 1024⟩))
      (humanFileSize (300 * 1024 * 1024)) ∧
    ContainsSubstr (validateVideoFile (some ⟨"big.mp4", "video/mp4", 300 * 1024 * 1024⟩))
      (humanFileSize maxVideoBytes) ∧
    validateVideoFile (some ⟨"ok.mp4", "video/mp4", 1024⟩) = "" := by
  have h1 := (c3_size_limit ⟨"big.mp4", "video/mp4", 300 * 1024 * 1024⟩ (by decide)).1 (by decide)
  exact ⟨h1.1, h1.2, (c3_size_limit ⟨"ok.mp4", "video/mp4", 1024⟩ (by decide)).2 (by decide)⟩

/-- C5: whenever create-post validation produces any error (the
missing-configuration error included), createViaWorker surfaces exactly
that message and issues no network operation: no token fetch and no HTTP
request. -/
theorem c5_validation_blocks_network
    (workerBaseUrl title content region season fact : String) (file : Option JsFile)
    (h : validateBeforeUpload workerBaseUrl title content region season fact file ≠ "") :
    createViaWorkerStart workerBaseUrl title content region season fact file =
      CreateStart.blocked
        (validateBeforeUpload workerBaseUrl title content region season fact file) ∧
    createNetworkCalls workerBaseUrl title content region season fact file = [] := by
  have h1 : createViaWorkerStart workerBaseUrl title content region season fact file =
      CreateStart.blocked
        (validateBeforeUpload workerBaseUrl title content region season fact file) := by
    simp [createViaWorkerStart, h]
  exact ⟨h1, by simp [createNetworkCalls, h1]⟩

theorem c5_validation_blocks_network_witness :
    createViaWorkerStart "" "" "" "" "" "" none =
      CreateStart.blocked "Не задан VITE_WORKER_BASE_URL" ∧
    createNetworkCalls "" "" "" "" "" "" none = [] := by
  have h := c5_validation_blocks_network "" "" "" "" "" "" none (by decide)
  simpa [validateBeforeUpload] using h

/-- C6 counterexample: in the part_001 revision, with the worker base URL
unset and a form that also fails field validation, the reported error is
the field-error record, not the configuration error. -/
theorem c6_counterexample :
    createViaWorkerPart1Start "" "" "" "naryn" "winter" "" none =
      P1CreatePre.formErrors
        { title := some "Заполни Title", content := some "Заполни Content",
          region := none, season := none,
          fact := some "Заполни fact (1 строка)", file := some "Выбери видеофайл" } ∧
    createViaWorkerPart1Start "" "" "" "naryn" "winter" "" none ≠
      P1CreatePre.configError "Не задан VITE_WORKER_BASE_URL" := by
  exact ⟨by decide, by decide⟩

/-- C6 amended: in the Admin.tsx flow (validateBeforeUpload), an unset
worker base URL is reported before any other check for every combination
of the remaining inputs; in the part_001 flow, field and file validation
run first and the configuration failure is reported only when the form
validation passes. -/
theorem c6_amended :
    (∀ title content region season fact file,
      validateBeforeUpload "" title content region season fact file =
        "Не задан VITE_WORKER_BASE_URL" ∧
      createViaWorkerStart "" title content region season fact file =
        CreateStart.blocked "Не задан VITE_WORKER_BASE_URL") ∧
    (∀ title content region season fact file,
      (validateCreateForm title content region season fact file).hasNone = true →
      createViaWorkerPart1Start "" title content region season fact file =
        P1CreatePre.configError "Не задан VITE_WORKER_BASE_URL") := by
  constructor
  · intro t c r s fa fl
    have hv : validateBeforeUpload "" t c r s fa fl = "Не задан VITE_WORKER_BASE_URL" := by
      simp [validateBeforeUpload]
    exact ⟨hv, by simp [createViaWorkerStart, hv]⟩
  · intro t c r s fa fl h
    simp [createViaWorkerPart1Start, h]

theorem c6_amended_witness :
    validateBeforeUpload "" "" "" "" "" "" none = "Не задан VITE_WORKER_BASE_URL" ∧
    createViaWorkerPart1Start "" "T" "C" "naryn" "winter" "F"
        (some ⟨"v.mp4", "video/mp4", 1000⟩) =
      P1CreatePre.configError "Не задан VITE_WORKER_BASE_URL" := by
  exact ⟨(c6_amended.1 "" "" "" "" "" none).1,
    c6_amended.2 "T" "C" "naryn" "winter" "F" (some ⟨"v.mp4", "video/mp4", 1000⟩) (by decide)⟩

/-- C1 counterexample: a status-200 response with a non-empty body that
does not parse as JSON takes the success path of createViaWorker (ok is
computed from the status alone), so the session does not terminate as
rejected with the synthesized message. -/
theorem c1_counterexample :
    createResponseOutcome 200 "garbage" ParseOutcome.err = CreateOutcome.success := by
  decide

/-- C1 amended: every response with status in [200,300) terminates the
create and replace sessions as succeeded, whether or not the body parses;
on a parse failure the synthesized error object carrying the message
Invalid JSON from server becomes the body but is not surfaced on the
success path, and an empty 2xx body is treated as success with body
null. -/
theorem c1_amended (status : Nat) (text : String) (parse : ParseOutcome)
    (h1 : 200 ≤ status) (h2 : status < 300) :
    createResponseOutcome status text parse = CreateOutcome.success ∧
    replaceResponseOutcome status text parse =
      ReplaceOutcome.success (xhrOnloadBody text parse) ∧
    (text = "" → xhrOnloadBody text parse = Json.null) ∧
    (text ≠ "" → parse = ParseOutcome.err →
      xhrOnloadBody text parse = Json.obj [("error", Json.str "Invalid JSON from server")]) := by
  have hok : (decide (200 ≤ status) && decide (status < 300)) = true := by
    simp [h1, h2]
  refine ⟨?_, ?_, ?_, ?_⟩
  · simp [createResponseOutcome, xhrOnloadResult, hok]
  · simp [replaceResponseOutcome, xhrOnloadResult, hok]
  · intro ht
    simp [xhrOnloadBody, ht]
  · intro ht hp
    simp [xhrOnloadBody, ht, hp]

theorem c1_amended_witness :
    createResponseOutcome 201 "garbage2" ParseOutcome.err = CreateOutcome.success ∧
    xhrOnloadBody "garbage2" ParseOutcome.err =
      Json.obj [("error", Json.str "Invalid JSON from server")] := by
  have h := c1_amended 201 "garbage2" ParseOutcome.err (by decide) (by decide)
  exact ⟨h.1, h.2.2.2 (by decide) rfl⟩

/-- C7 counterexample: a non-2xx response whose body has an error field
holding the empty string does not surface that value; the falsy test of
the source replaces it with the synthesized status message. -/
theorem c7_counterexample :
    saveEditResponseError 500 "\x7b\"error\":\"\"\x7d"
        (ParseOutcome.ok (Json.obj [("error", Json.str "")])) =
      some "Update failed (status 500)" ∧
    "Update failed (status 500)" ≠ ("" : String) := by
  exact ⟨by decide, by decide⟩

/-- C7 amended: for every response with status outside [200,300), an
error field holding a non-empty string is surfaced verbatim by the create
and update flows; when the field is absent, the empty string or null, the
surfaced message is the synthesized one and contains the status code. -/
theorem c7_amended (status : Nat) (text : String) (parse : ParseOutcome)
    (hs : ¬ (200 ≤ status ∧ status < 300)) :
    (∀ s, s ≠ "" → jsonField (xhrOnloadBody text parse) "error" = some (Json.str s) →
      createResponseOutcome status text parse = CreateOutcome.failure s) ∧
    ((jsonField (xhrOnloadBody text parse) "error" = none ∨
      jsonField (xhrOnloadBody text parse) "error" = some (Json.str "") ∨
      jsonField (xhrOnloadBody text parse) "error" = some Json.null) →
      createResponseOutcome status text parse =
        CreateOutcome.failure ("Upload failed (status " ++ toString status ++ ")") ∧
      ContainsSubstr ("Upload failed (status " ++ toString status ++ ")") (toString status)) ∧
    (∀ s, s ≠ "" → jsonField (fetchJsonBodyOrEmptyObj text parse) "error" = some (Json.str s) →
      saveEditResponseError status text parse = some s) ∧
    ((jsonField (fetchJsonBodyOrEmptyObj text parse) "error" = none ∨
      jsonField (fetchJsonBodyOrEmptyObj text parse) "error" = some (Json.str "") ∨
      jsonField (fetchJsonBodyOrEmptyObj text parse) "error" = some Json.null) →
      saveEditResponseError status text parse =
        some ("Update failed (status " ++ toString status ++ ")") ∧
      ContainsSubstr ("Update failed (status " ++ toString status ++ ")") (toString status)) := by
  have hok : (decide (200 ≤ status) && decide (status < 300)) = false := by
    rcases not_and_or.mp hs with h | h <;> simp [h]
  refine ⟨?_, ?_, ?_, ?_⟩
  · intro s hns he
    simp [createResponseOutcome, xhrOnloadResult, hok, he, jsOrElseString, jsTruthy,
      jsToString, hns]
  · rintro (he | he | he) <;>
      exact ⟨by simp [createResponseOutcome, xhrOnloadResult, hok, he, jsOrElseString,
        jsTruthy], containsSubstr_mid _ _ _⟩
  · intro s hns he
    simp [saveEditResponseError, hok, he, jsOrElseString, jsTruthy, jsToString, hns]
  · rintro (he | he | he) <;>
      exact ⟨by simp [saveEditResponseError, hok, he, jsOrElseString, jsTruthy],
        containsSubstr_mid _ _ _⟩

theorem c7_amended_witness :
    saveEditResponseError 500 "\x7b\"error\":\"role check failed\"\x7d"
        (ParseOutcome.ok (Json.obj [("error", Json.str "role check failed")])) =
      some "role check failed" ∧
    createResponseOutcome 500 "" ParseOutcome.err =
      CreateOutcome.failure ("Upload failed (status " ++ toString 500 ++ ")") := by
  refine ⟨(c7_amended 500 "\x7b\"error\":\"role check failed\"\x7d"
      (ParseOutcome.ok (Json.obj [("error", Json.str "role check failed")]))
      (by decide)).2.2.1 "role check failed" (by decide) rfl, ?_⟩
  exact ((c7_amended 500 "" ParseOutcome.err (by decide)).2.1 (Or.inl rfl)).1

/-- C8: the update-post request body consists of exactly the keys id,
title, content, region, season, fact, map_url and map_region, with
map_url null exactly when the trimmed input is blank, and carries no
video_file key for any edit-form state, so the text-edit path cannot
touch the video_file column. -/
theorem c8_update_body (editingId : Nat)
    (editTitle editContent editRegion editSeason editFact editMapUrl : String) :
    jsonObjKeys (saveEditRequestBody editingId editTitle editContent editRegion
        editSeason editFact editMapUrl) =
      ["id", "title", "content", "region", "season", "fact", "map_url", "map_region"] ∧
    jsonField (saveEditRequestBody editingId editTitle editContent editRegion
        editSeason editFact editMapUrl) "video_file" = none ∧
    (jsTrim editMapUrl = "" →
      jsonField (saveEditRequestBody editingId editTitle editContent editRegion
        editSeason editFact editMapUrl) "map_url" = some Json.null) ∧
    (jsTrim editMapUrl ≠ "" →
      jsonField (saveEditRequestBody editingId editTitle editContent editRegion
        editSeason editFact editMapUrl) "map_url" =
          some (Json.str (jsTrim editMapUrl))) := by
  refine ⟨rfl, rfl, ?_, ?_⟩
  · intro h
    simp [saveEditRequestBody, jsonField, List.lookup, h]
  · intro h
    simp [saveEditRequestBody, jsonField, List.lookup, h]

theorem c8_update_body_witness :
    jsonObjKeys (saveEditRequestBody 7 "T" "C" "naryn" "winter" "F" "") =
      ["id", "title", "content", "region", "season", "fact", "map_url", "map_region"] ∧
    jsonField (saveEditRequestBody 7 "T" "C" "naryn" "winter" "F" "") "video_file" = none ∧
    jsonField (saveEditRequestBody 7 "T" "C" "naryn" "winter" "F" "") "map_url" =
      some Json.null := by
  have h := c8_update_body 7 "T" "C" "naryn" "winter" "F" ""
  exact ⟨h.1, h.2.1, h.2.2.1 (by decide)⟩

/-- C9: on a successful replace-video response the locally displayed
video filename is set to exactly the string value of the file field of
the body; when the body has no string-valued file field nothing changes
(the client never derives the name itself); and the replace path never
mutates the title, content, region, season or fact display values. -/
theorem c9_replace_video_frame (st : EditState) (body : Json) :
    (∀ s, jsonField body "file" = some (Json.str s) →
      (replaceVideoApplySuccess st body).editVideoFile = s) ∧
    (jsonField body "file" = none → replaceVideoApplySuccess st body = st) ∧
    (∀ j, jsonField body "file" = some j → (∀ s, j ≠ Json.str s) →
      replaceVideoApplySuccess st body = st) ∧
    (replaceVideoApplySuccess st body).editTitle = st.editTitle ∧
    (replaceVideoApplySuccess st body).editContent = st.editContent ∧
    (replaceVideoApplySuccess st body).editRegion = st.editRegion ∧
    (replaceVideoApplySuccess st body).editSeason = st.editSeason ∧
    (replaceVideoApplySuccess st body).editFact = st.editFact := by
  cases hf : jsonField body "file" with
  | none =>
    refine ⟨fun s h => ?_, fun _ => ?_, fun j h _ => ?_, ?_, ?_, ?_, ?_, ?_⟩ <;>
      simp_all [replaceVideoApplySuccess, hf]
  | some j =>
    cases j with
    | str s =>
      refine ⟨fun s2 h => ?_, fun h => ?_, fun j2 h hne => ?_, ?_, ?_, ?_, ?_, ?_⟩ <;>
        simp_all [replaceVideoApplySuccess, hf]
    | null =>
      refine ⟨fun s h => ?_, fun h => ?_, fun j2 h hne => ?_, ?_, ?_, ?_, ?_, ?_⟩ <;>
        simp_all [replaceVideoApplySuccess, hf]
    | bool b =>
      refine ⟨fun s h => ?_, fun h => ?_, fun j2 h hne => ?_, ?_, ?_, ?_, ?_, ?_⟩ <;>
        simp_all [replaceVideoApplySuccess, hf]
    | num n =>
      refine ⟨fun s h => ?_, fun h => ?_, fun j2 h hne => ?_, ?_, ?_, ?_, ?_, ?_⟩ <;>
        simp_all [replaceVideoApplySuccess, hf]
    | obj fields =>
      refine ⟨fun s h => ?_, fun h => ?_, fun j2 h hne => ?_, ?_, ?_, ?_, ?_, ?_⟩ <;>
        simp_all [replaceVideoApplySuccess, hf]

theorem c9_replace_video_frame_witness :
    (replaceVideoApplySuccess ⟨"t", "c", "old.mp4", "naryn", "winter", "f", "u"⟩
      (Json.obj [("success", Json.bool true), ("file", Json.str "clip2.mp4")])).editVideoFile =
      "clip2.mp4" ∧
    (replaceVideoApplySuccess ⟨"t", "c", "old.mp4", "naryn", "winter", "f", "u"⟩
      (Json.obj [("success", Json.bool true), ("file", Json.str "clip2.mp4")])).editTitle =
      "t" ∧
    (replaceVideoApplySuccess ⟨"t", "c", "old.mp4", "naryn", "winter", "f", "u"⟩
      (Json.obj [("success", Json.bool true), ("file", Json.str "clip2.mp4")])).editFact =
      "f" := by
  have h := c9_replace_video_frame ⟨"t", "c", "old.mp4", "naryn", "winter", "f", "u"⟩
    (Json.obj [("success", Json.bool true), ("file", Json.str "clip2.mp4")])
  exact ⟨h.1 "clip2.mp4" rfl, h.2.2.2.1, h.2.2.2.2.2.2.2⟩

end KG
